import Mathlib

/-!
Verification of `create_linkedin_icons.py`: a shallow embedding of the
icon renderer and its driver. The Python floating-point arithmetic is
modelled exactly: IEEE-754 binary64, round to nearest, ties to even,
with values represented as mantissa-exponent pairs over ℕ and ℤ so that
every computation is kernel-executable. Overflow and subnormals are far
outside the range this program exercises and are not modelled.
-/

/-! ## IEEE-754 binary64 arithmetic model -/

set_option maxRecDepth 8000

/-- Fuelled floor-log2 on ℕ, by structural recursion on the fuel. With
enough fuel it counts how often the argument can be halved before
reaching 1. -/
def log2fuel : ℕ → ℕ → ℕ
  | 0, _ => 0
  | fuel + 1, n => if n < 2 then 0 else log2fuel fuel (n / 2) + 1

/-- Floor of the base-2 logarithm of a positive natural. Fuel `n` always
suffices, since at most `log2 n ≤ n` halvings occur. -/
def nlog2 (n : ℕ) : ℕ := log2fuel n n

/-- A nonnegative binary64 value, as an exact dyadic rational
`m * 2 ^ e`. Rounding produces `m < 2 ^ 53` (or `2 ^ 53` exactly when the
significand rounds up across a power of two, which denotes the same real). -/
structure F64 where
  m : ℕ
  e : ℤ
deriving DecidableEq, Repr

/-- The floor-log2 exponent of the positive rational `p / q`, computed from
`nlog2` of numerator and denominator with a one-step correction (the
uncorrected guess is off by at most one, always upward). -/
def rfExp (p q : ℕ) : ℤ :=
  if q * 2 ^ ((nlog2 p : ℤ) - (nlog2 q : ℤ)).toNat ≤
      p * 2 ^ (-((nlog2 p : ℤ) - (nlog2 q : ℤ))).toNat
  then (nlog2 p : ℤ) - (nlog2 q : ℤ)
  else (nlog2 p : ℤ) - (nlog2 q : ℤ) - 1

/-- Numerator of `p / q` scaled by `2 ^ (52 - rfExp p q)`, so that the scaled
value lies in `[2 ^ 52, 2 ^ 53)`. -/
def rfNum (p q : ℕ) : ℕ := p * 2 ^ ((52 : ℤ) - rfExp p q).toNat

/-- Denominator of `p / q` scaled by `2 ^ (52 - rfExp p q)`. -/
def rfDen (p q : ℕ) : ℕ := q * 2 ^ (rfExp p q - 52).toNat

/-- The 53-bit significand of `p / q`: the scaled value rounded to the
nearest integer, ties to even, via integer division with remainder. -/
def rfMant (p q : ℕ) : ℕ :=
  if 2 * (rfNum p q % rfDen p q) < rfDen p q then rfNum p q / rfDen p q
  else if rfDen p q < 2 * (rfNum p q % rfDen p q) then rfNum p q / rfDen p q + 1
  else if rfNum p q / rfDen p q % 2 = 0 then rfNum p q / rfDen p q
  else rfNum p q / rfDen p q + 1

/-- Round the exact nonnegative rational `p / q` to binary64. -/
def roundFrac (p q : ℕ) : F64 :=
  if p = 0 then ⟨0, 0⟩ else ⟨rfMant p q, rfExp p q - 52⟩

/-- The exact rational value of a binary64 datum. -/
def F64.toQ (x : F64) : ℚ := (x.m : ℚ) * 2 ^ x.e

/-- IEEE-754 binary64 multiplication: the exact dyadic product, rounded. -/
def F64.mul (x y : F64) : F64 :=
  roundFrac (x.m * y.m * 2 ^ (x.e + y.e).toNat) (2 ^ (-(x.e + y.e)).toNat)

/-- Python `int(·)` on a nonnegative float: truncation toward zero, which
is the floor of `m * 2 ^ e`. -/
def F64.floorNat (x : F64) : ℕ := x.m * 2 ^ x.e.toNat / 2 ^ (-x.e).toNat

/-- The binary64 value of the Python literal `0.7`. -/
def lit07 : F64 := roundFrac 7 10

/-- The binary64 value of the Python literal `0.75` (exactly representable). -/
def lit075 : F64 := roundFrac 3 4

/-- The binary64 value of the Python literal `0.15`. -/
def lit015 : F64 := roundFrac 3 20

/-- The binary64 value of the Python literal `0.2`. -/
def lit02 : F64 := roundFrac 1 5

/-- The binary64 value of the Python literal `0.3`. -/
def lit03 : F64 := roundFrac 3 10

/-- Python `int(n * c)` for a nonnegative int `n` and a float `c`: `n` is
converted to binary64 (rounding to 53 bits), the product is computed in
binary64 (rounding again), and `int` truncates toward zero. -/
def pyIntMulFloat (n : ℕ) (c : F64) : ℕ := ((roundFrac n 1).mul c).floorNat

/-! ## Colors, drawing operations and images -/

/-- An RGB color triple, one byte per channel. -/
structure Color where
  r : ℕ
  g : ℕ
  b : ℕ
deriving DecidableEq, Repr

/-- LinkedIn blue, the hex literal `#0A66C2` of the source. -/
def linkedin_blue : Color := ⟨0x0A, 0x66, 0xC2⟩

/-- White, the hex literal `#FFFFFF` of the source. -/
def white : Color := ⟨0xFF, 0xFF, 0xFF⟩

/-- The drawing primitives the source invokes on the PIL `ImageDraw` object,
with the exact parameters it passes: a filled rounded rectangle, a filled
polygon, and a filled ellipse given by its bounding box. -/
inductive DrawOp where
  | rounded_rectangle (left top right bottom radius : ℤ) (fill : Color)
  | polygon (points : List (ℤ × ℤ)) (fill : Color)
  | ellipse (left top right bottom : ℤ) (fill : Color)
deriving DecidableEq, Repr

/-- The fill color of a drawing operation. -/
def DrawOp.fillColor : DrawOp → Color
  | .rounded_rectangle _ _ _ _ _ f => f
  | .polygon _ f => f
  | .ellipse _ _ _ _ f => f

/-- Modelled from the spec: membership in a filled rounded rectangle
(the rectangle with each corner replaced by a quarter disc of the given
radius). PIL's exact rasterization is library code outside this repository;
the claims depend on the parameters and fill colors of the operations, not
on the exact covered pixel set. -/
def inRoundedRect (l t r b rad x y : ℤ) : Bool :=
  decide ((l ≤ x ∧ x ≤ r ∧ t ≤ y ∧ y ≤ b) ∧
    (x < l + rad ∧ y < t + rad → (x - (l + rad)) ^ 2 + (y - (t + rad)) ^ 2 ≤ rad ^ 2) ∧
    (r - rad < x ∧ y < t + rad → (x - (r - rad)) ^ 2 + (y - (t + rad)) ^ 2 ≤ rad ^ 2) ∧
    (x < l + rad ∧ b - rad < y → (x - (l + rad)) ^ 2 + (y - (b - rad)) ^ 2 ≤ rad ^ 2) ∧
    (r - rad < x ∧ b - rad < y → (x - (r - rad)) ^ 2 + (y - (b - rad)) ^ 2 ≤ rad ^ 2))

/-- Modelled from the spec: membership in the filled triangle with the given
vertices, by the same-side (cross product sign) test. -/
def inTriangle (a b c : ℤ × ℤ) (x y : ℤ) : Bool :=
  let d1 : ℤ := (b.1 - a.1) * (y - a.2) - (b.2 - a.2) * (x - a.1)
  let d2 : ℤ := (c.1 - b.1) * (y - b.2) - (c.2 - b.2) * (x - b.1)
  let d3 : ℤ := (a.1 - c.1) * (y - c.2) - (a.2 - c.2) * (x - c.1)
  decide ((0 ≤ d1 ∧ 0 ≤ d2 ∧ 0 ≤ d3) ∨ (d1 ≤ 0 ∧ d2 ≤ 0 ∧ d3 ≤ 0))

/-- Modelled from the spec: membership in the filled ellipse inscribed in the
given bounding box (integer form of the standard ellipse inequality). -/
def inEllipse (l t r b x y : ℤ) : Bool :=
  decide ((2 * x - (l + r)) ^ 2 * (b - t) ^ 2 + (2 * y - (t + b)) ^ 2 * (r - l) ^ 2
    ≤ (r - l) ^ 2 * (b - t) ^ 2)

/-- Whether a drawing operation covers the pixel at `(x, y)`. The source only
ever passes a three-vertex polygon; other vertex lists cover nothing. -/
def DrawOp.covered : DrawOp → ℤ → ℤ → Bool
  | .rounded_rectangle l t r b rad _, x, y => inRoundedRect l t r b rad x y
  | .polygon [a, b, c] _, x, y => inTriangle a b c x y
  | .polygon _ _, _, _ => false
  | .ellipse l t r b _, x, y => inEllipse l t r b x y

/-- An in-memory raster image: its dimensions, the background fill it was
created with, and the list of flat-fill drawing operations applied to it,
in order. -/
structure Image where
  width : ℕ
  height : ℕ
  background : Color
  ops : List DrawOp
deriving DecidableEq, Repr

/-- The color of the pixel at `(x, y)`: the fill of the last operation
covering it, or the background if none does (PIL flat fills overwrite,
with no blending). -/
def pixelAt (img : Image) (x y : ℤ) : Color :=
  img.ops.foldl (fun c op => if op.covered x y then op.fillColor else c) img.background

/-- The full pixel data of an image, row-major. Two images with equal
dimensions and equal pixel data serialize to byte-identical output. -/
def pixelData (img : Image) : List (List Color) :=
  (List.range img.height).map (fun y =>
    (List.range img.width).map (fun x => pixelAt img (x : ℤ) (y : ℤ)))

/-! ## The renderer, `create_linkedin_chat_icon` -/

/-- The embedding of `create_linkedin_chat_icon(size)`: each `let` mirrors
one assignment of the source, with every `int(· * float-literal)` rendered
by the exact binary64 model `pyIntMulFloat` and every Python `//` on
nonnegative ints rendered by natural-number division. -/
def create_linkedin_chat_icon (size : ℕ) : Image :=
  let bubble_size : ℕ := pyIntMulFloat size lit07
  let margin : ℕ := (size - bubble_size) / 2
  let bubble_left : ℤ := margin
  let bubble_top : ℤ := margin
  let bubble_right : ℤ := margin + bubble_size
  let bubble_bottom : ℤ := margin + pyIntMulFloat bubble_size lit075
  let corner_radius : ℤ := pyIntMulFloat bubble_size lit015
  let tail_size : ℕ := pyIntMulFloat bubble_size lit02
  let tail_x : ℤ := bubble_left + pyIntMulFloat bubble_size lit03
  let tail_y : ℤ := bubble_bottom
  let dot_radius : ℤ := max 1 (size / 32)
  let dot_y : ℤ := bubble_top + bubble_size / 3
  let center_x : ℤ := bubble_left + bubble_size / 2
  let dot_spacing : ℤ := bubble_size / 6
  { width := size
    height := size
    background := linkedin_blue
    ops :=
      [DrawOp.rounded_rectangle bubble_left bubble_top bubble_right bubble_bottom
         corner_radius white,
       DrawOp.polygon
         [(tail_x, tail_y), (tail_x + tail_size, tail_y),
          (tail_x + tail_size / 2, tail_y + tail_size / 2)] white] ++
      (List.range 3).map (fun i =>
        let dot_x : ℤ := center_x - dot_spacing + (i : ℤ) * dot_spacing
        DrawOp.ellipse (dot_x - dot_radius) (dot_y - dot_radius)
          (dot_x + dot_radius) (dot_y + dot_radius) linkedin_blue) }

/-! ## The driver, `main` -/

/-- The output directory of the driver, the literal `"src/icons"`. -/
def icons_dir : String := "src/icons"

/-- The sizes the driver iterates over, in order. -/
def sizes : List ℕ := [16, 32, 64, 128]

/-- The file path the driver writes for a given size:
`f"{icons_dir}/logo-{size}.png"`. -/
def iconPath (size : ℕ) : String :=
  icons_dir ++ "/logo-" ++ toString size ++ ".png"

/-- A filesystem state: the set of existing directories and an association
list from paths to file contents. A saved PNG is represented by the image
it encodes (the encoding is injective, so content equality is image
equality). Creation of intermediate parent directories by `os.makedirs` is
abstracted to the target directory. -/
structure FSState where
  dirs : List String
  files : List (String × Image)
deriving DecidableEq

/-- Write a file: overwrite the entry for the path if present, otherwise
append a new entry. -/
def setFile : List (String × Image) → String → Image → List (String × Image)
  | [], p, img => [(p, img)]
  | (q, old) :: rest, p, img =>
    if q = p then (p, img) :: rest else (q, old) :: setFile rest p img

/-- Read a file, if present. -/
def lookupFile : List (String × Image) → String → Option Image
  | [], _ => none
  | (q, img) :: rest, p => if q = p then some img else lookupFile rest p

/-- The effect of `os.makedirs(d, exist_ok=True)` on a filesystem state. -/
def makedirs (d : String) (fs : FSState) : FSState :=
  { fs with dirs := if d ∈ fs.dirs then fs.dirs else d :: fs.dirs }

/-- The effect of `icon.save(path, "PNG")` on a filesystem state. -/
def saveFile (fs : FSState) (p : String) (img : Image) : FSState :=
  { fs with files := setFile fs.files p img }

/-- An environment fault model for the two fallible I/O operations of the
driver: whether directory creation fails, and whether saving to a given path
fails, each with the error the operation would raise. -/
structure IOFaults where
  mkdirErr : Option String
  saveErr : String → Option String

/-- The fault-free environment. -/
def noFaults : IOFaults := ⟨none, fun _ => none⟩

/-- One pass of the driver loop `for size in sizes:`: render, save, print.
A save failure stops the loop at once, returning the underlying error
together with the filesystem as mutated so far (earlier writes remain). -/
def runSizes (env : IOFaults) : List ℕ → FSState → List String →
    (String × FSState) ⊕ (FSState × List String)
  | [], fs, out => Sum.inr (fs, out)
  | s :: rest, fs, out =>
    match env.saveErr (iconPath s) with
    | some e => Sum.inl (e, fs)
    | none =>
      runSizes env rest (saveFile fs (iconPath s) (create_linkedin_chat_icon s))
        (out ++ ["Created " ++ iconPath s])

namespace Driver

/-- The embedding of `main()`: ensure the output directory exists, then for
each size render the icon, save it, and report the write. An I/O error at
any step aborts immediately with that error and the filesystem state reached
so far; there is no handler, retry, or rollback in the source. -/
def main (env : IOFaults) (fs : FSState) : (String × FSState) ⊕ (FSState × List String) :=
  match env.mkdirErr with
  | some e => Sum.inl (e, fs)
  | none => runSizes env sizes (makedirs icons_dir fs) []

end Driver

/-! ## Views of the drawn primitives, for stating the claims -/

/-- A rounded-rectangle operation, viewed with named fields. -/
structure RRect where
  left : ℤ
  top : ℤ
  right : ℤ
  bottom : ℤ
  radius : ℤ
  fill : Color
deriving DecidableEq, Repr

/-- The rounded rectangles drawn on an image, in drawing order. -/
def roundedRectsOf (img : Image) : List RRect :=
  img.ops.filterMap fun op =>
    match op with
    | .rounded_rectangle l t r b rad f => some ⟨l, t, r, b, rad, f⟩
    | _ => none

/-- The polygons drawn on an image (vertex list and fill), in drawing order. -/
def polygonsOf (img : Image) : List (List (ℤ × ℤ) × Color) :=
  img.ops.filterMap fun op =>
    match op with
    | .polygon ps f => some (ps, f)
    | _ => none

/-- An ellipse operation, viewed as its bounding box with named fields. -/
structure EllipseBox where
  left : ℤ
  top : ℤ
  right : ℤ
  bottom : ℤ
  fill : Color
deriving DecidableEq, Repr

/-- The ellipses drawn on an image, in drawing order. -/
def ellipsesOf (img : Image) : List EllipseBox :=
  img.ops.filterMap fun op =>
    match op with
    | .ellipse l t r b f => some ⟨l, t, r, b, f⟩
    | _ => none

/-! ## The quantities named by the specification's claims -/

/-- The claims' `bubble_edge`: `int(size * 0.7)` in binary64 arithmetic. -/
def claimBubbleEdge (size : ℕ) : ℕ := pyIntMulFloat size lit07

/-- The claims' `margin`: `(size - bubble_edge)` integer-divided by 2,
stated over ℤ. -/
def claimMargin (size : ℕ) : ℤ := ((size : ℤ) - (claimBubbleEdge size : ℤ)) / 2

/-- The claims' bubble bottom: `margin + int(bubble_edge * 0.75)`. -/
def claimBubbleBottom (size : ℕ) : ℤ :=
  claimMargin size + (pyIntMulFloat (claimBubbleEdge size) lit075 : ℤ)

/-- The claims' corner radius: `int(bubble_edge * 0.15)`. -/
def claimCornerRadius (size : ℕ) : ℕ := pyIntMulFloat (claimBubbleEdge size) lit015

/-- The claims' `tail_size`: `int(bubble_edge * 0.2)`. -/
def claimTailSize (size : ℕ) : ℕ := pyIntMulFloat (claimBubbleEdge size) lit02

/-- The claims' `tail_x`: the bubble's left edge plus the x-offset
`int(bubble_edge * 0.3)`. -/
def claimTailX (size : ℕ) : ℤ :=
  claimMargin size + (pyIntMulFloat (claimBubbleEdge size) lit03 : ℤ)

/-- The claims' dot radius: `max(1, floor(size / 32))`. -/
def claimDotRadius (size : ℕ) : ℕ := max 1 (size / 32)

/-- The claims' dot center y: `bubble_top + bubble_edge / 3`. -/
def claimDotY (size : ℕ) : ℤ := claimMargin size + (claimBubbleEdge size / 3 : ℕ)

/-- The claims' bubble center x: `bubble_left + bubble_edge / 2`. -/
def claimCenterX (size : ℕ) : ℤ := claimMargin size + (claimBubbleEdge size / 2 : ℕ)

/-- The claims' dot spacing: `bubble_edge / 6`. -/
def claimDotSpacing (size : ℕ) : ℕ := claimBubbleEdge size / 6

/-- Whether every coordinate a drawing operation passes to PIL lies within
the canvas `[0, size-1]` in both axes (so nothing is clipped at the edge). -/
def opInCanvas (size : ℕ) : DrawOp → Bool
  | .rounded_rectangle l t r b _ _ =>
    decide (0 ≤ l ∧ 0 ≤ t ∧ 0 ≤ r ∧ 0 ≤ b ∧
      l ≤ (size : ℤ) - 1 ∧ t ≤ (size : ℤ) - 1 ∧ r ≤ (size : ℤ) - 1 ∧ b ≤ (size : ℤ) - 1)
  | .polygon ps _ =>
    ps.all fun v =>
      decide (0 ≤ v.1 ∧ v.1 ≤ (size : ℤ) - 1 ∧ 0 ≤ v.2 ∧ v.2 ≤ (size : ℤ) - 1)
  | .ellipse l t r b _ =>
    decide (0 ≤ l ∧ 0 ≤ t ∧ 0 ≤ r ∧ 0 ≤ b ∧
      l ≤ (size : ℤ) - 1 ∧ t ≤ (size : ℤ) - 1 ∧ r ≤ (size : ℤ) - 1 ∧ b ≤ (size : ℤ) - 1)

/-- Whether every drawing operation of the rendered icon stays within the
canvas bounds. -/
def iconInCanvas (size : ℕ) : Bool :=
  (create_linkedin_chat_icon size).ops.all (opInCanvas size)

/-! ## Correctness bounds for the binary64 model -/

theorem log2fuel_succ (fuel n : ℕ) :
    log2fuel (fuel + 1) n = if n < 2 then 0 else log2fuel fuel (n / 2) + 1 := rfl

/-- The fuelled log2 never overestimates: `2 ^ log2fuel fuel n ≤ n`. -/
theorem pow_log2fuel_le (fuel : ℕ) : ∀ n : ℕ, 1 ≤ n → 2 ^ log2fuel fuel n ≤ n := by
  induction fuel with
  | zero => intro n h1; simpa [log2fuel] using h1
  | succ fuel ih =>
    intro n h1
    rw [log2fuel_succ]
    split_ifs with h2
    · simpa using h1
    · have hh : 1 ≤ n / 2 := by omega
      have := ih (n / 2) hh
      have h3 : 2 ^ (log2fuel fuel (n / 2) + 1) = 2 * 2 ^ log2fuel fuel (n / 2) := by
        ring
      omega

/-- With fuel at least `n`, the fuelled log2 does not underestimate:
`n < 2 ^ (log2fuel fuel n + 1)`. -/
theorem lt_pow_log2fuel (fuel : ℕ) : ∀ n : ℕ, n ≤ fuel → n < 2 ^ (log2fuel fuel n + 1) := by
  induction fuel with
  | zero => intro n h; interval_cases n; simp [log2fuel]
  | succ fuel ih =>
    intro n h
    rw [log2fuel_succ]
    split_ifs with h2
    · simpa using h2
    · have hh : n / 2 ≤ fuel := by omega
      have := ih (n / 2) hh
      have h3 : 2 ^ (log2fuel fuel (n / 2) + 1 + 1) = 2 * 2 ^ (log2fuel fuel (n / 2) + 1) := by
        ring
      omega

theorem pow_nlog2_le {n : ℕ} (h : 1 ≤ n) : 2 ^ nlog2 n ≤ n := pow_log2fuel_le n n h

theorem lt_pow_nlog2 (n : ℕ) : n < 2 ^ (nlog2 n + 1) := lt_pow_log2fuel n n le_rfl

/-- Splitting an integer power of two into its positive and negative parts. -/
theorem zpow_toNat_mul (x : ℤ) :
    (2 : ℚ) ^ x * (2 : ℚ) ^ (-x).toNat = (2 : ℚ) ^ x.toNat := by
  have hx : (x.toNat : ℤ) = x + ((-x).toNat : ℤ) := by omega
  rw [← zpow_natCast (2 : ℚ) x.toNat, ← zpow_natCast (2 : ℚ) (-x).toNat, hx,
    zpow_add₀ (two_ne_zero)]

/-- Comparison of a dyadic multiple with a natural, moved entirely into ℕ. -/
theorem dyadic_le_iff (A B : ℕ) (x : ℤ) :
    (A : ℚ) * (2 : ℚ) ^ x ≤ (B : ℚ) ↔ A * 2 ^ x.toNat ≤ B * 2 ^ (-x).toNat := by
  have hpos : (0 : ℚ) < (2 : ℚ) ^ ((-x).toNat : ℕ) := by positivity
  constructor
  · intro h
    have h2 := mul_le_mul_of_nonneg_right h (le_of_lt hpos)
    rw [mul_assoc, zpow_toNat_mul] at h2
    exact_mod_cast h2
  · intro h
    have h2 : ((A * 2 ^ x.toNat : ℕ) : ℚ) ≤ ((B * 2 ^ (-x).toNat : ℕ) : ℚ) := by
      exact_mod_cast h
    push_cast at h2
    rw [← zpow_toNat_mul x, ← mul_assoc] at h2
    exact le_of_mul_le_mul_right h2 hpos

theorem rfDen_pos (p q : ℕ) (hq : 0 < q) : 0 < rfDen p q := by
  unfold rfDen; positivity

/-- The corrected exponent never overestimates: `2 ^ rfExp p q ≤ p / q`. -/
theorem rfExp_le (p q : ℕ) (hp : 1 ≤ p) :
    (2 : ℚ) ^ rfExp p q * q ≤ p := by
  unfold rfExp
  split_ifs with h
  · rw [mul_comm]
    exact (dyadic_le_iff q p _).mpr h
  · have hq2 : (q : ℚ) ≤ ((2 ^ (nlog2 q + 1) : ℕ) : ℚ) := by
      exact_mod_cast le_of_lt (lt_pow_nlog2 q)
    have hp2 : ((2 ^ nlog2 p : ℕ) : ℚ) ≤ (p : ℚ) := by exact_mod_cast pow_nlog2_le hp
    have hpow : (0 : ℚ) ≤ (2 : ℚ) ^ ((nlog2 p : ℤ) - (nlog2 q : ℤ) - 1) := by positivity
    calc (2 : ℚ) ^ ((nlog2 p : ℤ) - (nlog2 q : ℤ) - 1) * q
        ≤ (2 : ℚ) ^ ((nlog2 p : ℤ) - (nlog2 q : ℤ) - 1) *
            ((2 ^ (nlog2 q + 1) : ℕ) : ℚ) := by
          exact mul_le_mul_of_nonneg_left hq2 hpow
      _ = (2 : ℚ) ^ (nlog2 p : ℤ) := by
          push_cast
          rw [← zpow_natCast (2 : ℚ) (nlog2 q + 1), ← zpow_add₀ (two_ne_zero)]
          congr 1
          omega
      _ = ((2 ^ nlog2 p : ℕ) : ℚ) := by
          push_cast
          rw [← zpow_natCast (2 : ℚ) (nlog2 p)]
      _ ≤ (p : ℚ) := hp2

/-- Rounding to nearest adds at most half a unit: `2 m D ≤ 2 N + D`. -/
theorem rfMant_mul_le (p q : ℕ) (hD : 0 < rfDen p q) :
    rfMant p q * (2 * rfDen p q) ≤ 2 * rfNum p q + rfDen p q := by
  unfold rfMant
  set D := rfDen p q
  set N := rfNum p q
  set md := N / D
  set r := N % D
  have hdm : D * md + r = N := Nat.div_add_mod N D
  have hr : r < D := Nat.mod_lt N hD
  split_ifs with h1 h2 h3
  · rw [show md * (2 * D) = 2 * (D * md) from by ring]; omega
  · rw [show (md + 1) * (2 * D) = 2 * (D * md) + 2 * D from by ring]; omega
  · rw [show md * (2 * D) = 2 * (D * md) from by ring]; omega
  · rw [show (md + 1) * (2 * D) = 2 * (D * md) + 2 * D from by ring]; omega

/-- The mantissa bound, over ℚ. -/
theorem rfMant_le_q (p q : ℕ) (hD : 0 < rfDen p q) :
    (rfMant p q : ℚ) ≤ (rfNum p q : ℚ) / (rfDen p q : ℚ) + 1 / 2 := by
  have key : ((rfMant p q * (2 * rfDen p q) : ℕ) : ℚ) ≤
      ((2 * rfNum p q + rfDen p q : ℕ) : ℚ) := by
    exact_mod_cast rfMant_mul_le p q hD
  have hDq : (0 : ℚ) < (rfDen p q : ℚ) := by exact_mod_cast hD
  rw [div_add_div _ _ (ne_of_gt hDq) (two_ne_zero), le_div_iff₀ (by positivity)]
  push_cast at key ⊢
  ring_nf
  ring_nf at key
  linarith

/-- The scaled fraction denotes the original value times `2 ^ (52 - e)`. -/
theorem rfNum_div_rfDen (p q : ℕ) :
    (rfNum p q : ℚ) / (rfDen p q : ℚ) =
      ((p : ℚ) / (q : ℚ)) * (2 : ℚ) ^ ((52 : ℤ) - rfExp p q) := by
  unfold rfNum rfDen
  have h2 : (rfExp p q - 52).toNat = (-((52 : ℤ) - rfExp p q)).toNat := by omega
  rw [h2]
  have hsplit : ((2 : ℚ) ^ ((52 : ℤ) - rfExp p q).toNat) /
      ((2 : ℚ) ^ (-((52 : ℤ) - rfExp p q)).toNat) = (2 : ℚ) ^ ((52 : ℤ) - rfExp p q) := by
    rw [div_eq_iff (by positivity), zpow_toNat_mul]
  push_cast
  rw [← hsplit]
  ring

theorem F64.toQ_nonneg (x : F64) : 0 ≤ x.toQ := by
  unfold F64.toQ; positivity

/-- Rounding a nonnegative fraction to binary64 overestimates it by at most
one part in `2 ^ 53` (relative error of half an ulp). -/
theorem roundFrac_toQ_le (p q : ℕ) (hq : 0 < q) :
    (roundFrac p q).toQ ≤ ((p : ℚ) / (q : ℚ)) * (1 + (2 : ℚ) ^ (-53 : ℤ)) := by
  unfold roundFrac
  split_ifs with hp
  · subst hp
    simp [F64.toQ]
  · have hp1 : 1 ≤ p := Nat.one_le_iff_ne_zero.mpr hp
    have hD : 0 < rfDen p q := rfDen_pos p q hq
    have hqQ : (0 : ℚ) < (q : ℚ) := by exact_mod_cast hq
    have hmant := rfMant_le_q p q hD
    have hval := rfNum_div_rfDen p q
    have hexp : (2 : ℚ) ^ rfExp p q ≤ (p : ℚ) / (q : ℚ) :=
      (le_div_iff₀ hqQ).mpr (rfExp_le p q hp1)
    show (rfMant p q : ℚ) * 2 ^ (rfExp p q - 52) ≤ _
    have h2pos : (0 : ℚ) < (2 : ℚ) ^ (rfExp p q - 52) := by positivity
    have hcancel : (2 : ℚ) ^ ((52 : ℤ) - rfExp p q) * (2 : ℚ) ^ (rfExp p q - 52) = 1 := by
      rw [← zpow_add₀ (two_ne_zero : (2 : ℚ) ≠ 0)]
      rw [show (52 : ℤ) - rfExp p q + (rfExp p q - 52) = 0 from by ring, zpow_zero]
    have hhalf : (1 / 2 : ℚ) * (2 : ℚ) ^ (rfExp p q - 52) = (2 : ℚ) ^ (rfExp p q - 53) := by
      rw [show rfExp p q - 53 = (-1 : ℤ) + (rfExp p q - 52) from by ring,
        zpow_add₀ (two_ne_zero : (2 : ℚ) ≠ 0)]
      norm_num
    have hsmall : (2 : ℚ) ^ (rfExp p q - 53) ≤ ((p : ℚ) / (q : ℚ)) * (2 : ℚ) ^ (-53 : ℤ) := by
      rw [show rfExp p q - 53 = rfExp p q + (-53 : ℤ) from by ring,
        zpow_add₀ (two_ne_zero : (2 : ℚ) ≠ 0)]
      exact mul_le_mul_of_nonneg_right hexp (by positivity)
    calc (rfMant p q : ℚ) * 2 ^ (rfExp p q - 52)
        ≤ ((rfNum p q : ℚ) / (rfDen p q : ℚ) + 1 / 2) * 2 ^ (rfExp p q - 52) :=
          mul_le_mul_of_nonneg_right hmant (le_of_lt h2pos)
      _ = ((p : ℚ) / (q : ℚ)) * ((2 : ℚ) ^ ((52 : ℤ) - rfExp p q) * 2 ^ (rfExp p q - 52)) +
            (1 / 2 : ℚ) * 2 ^ (rfExp p q - 52) := by
          rw [hval]; ring
      _ = (p : ℚ) / (q : ℚ) + (2 : ℚ) ^ (rfExp p q - 53) := by
          rw [hcancel, hhalf, mul_one]
      _ ≤ (p : ℚ) / (q : ℚ) + ((p : ℚ) / (q : ℚ)) * (2 : ℚ) ^ (-53 : ℤ) := by
          linarith
      _ = ((p : ℚ) / (q : ℚ)) * (1 + (2 : ℚ) ^ (-53 : ℤ)) := by ring

/-- Binary64 multiplication overestimates the exact product by at most half
an ulp, for nonnegative operands. -/
theorem mul_toQ_le (x y : F64) :
    (x.mul y).toQ ≤ x.toQ * y.toQ * (1 + (2 : ℚ) ^ (-53 : ℤ)) := by
  unfold F64.mul
  have hq : 0 < 2 ^ (-(x.e + y.e)).toNat := Nat.pos_pow_of_pos _ (by norm_num)
  have h := roundFrac_toQ_le (x.m * y.m * 2 ^ (x.e + y.e).toNat) (2 ^ (-(x.e + y.e)).toNat) hq
  have hfrac : ((x.m * y.m * 2 ^ (x.e + y.e).toNat : ℕ) : ℚ) /
      ((2 ^ (-(x.e + y.e)).toNat : ℕ) : ℚ) = x.toQ * y.toQ := by
    unfold F64.toQ
    push_cast
    rw [div_eq_iff (by positivity)]
    rw [show (x.m : ℚ) * 2 ^ x.e * ((y.m : ℚ) * 2 ^ y.e) * 2 ^ ((-(x.e + y.e)).toNat : ℕ) =
      (x.m : ℚ) * (y.m : ℚ) * ((2 : ℚ) ^ (x.e + y.e) * 2 ^ ((-(x.e + y.e)).toNat : ℕ)) from by
        rw [zpow_add₀ (two_ne_zero : (2 : ℚ) ≠ 0)]; ring]
    rw [zpow_toNat_mul]
  rw [← hfrac]
  exact_mod_cast h

/-- Truncation toward zero does not exceed the value. -/
theorem floorNat_le_toQ (x : F64) : (x.floorNat : ℚ) ≤ x.toQ := by
  unfold F64.floorNat F64.toQ
  calc ((x.m * 2 ^ x.e.toNat / 2 ^ (-x.e).toNat : ℕ) : ℚ)
      ≤ ((x.m * 2 ^ x.e.toNat : ℕ) : ℚ) / ((2 ^ (-x.e).toNat : ℕ) : ℚ) := Nat.cast_div_le
    _ = (x.m : ℚ) * 2 ^ x.e := by
        push_cast
        rw [div_eq_iff (by positivity), mul_assoc, zpow_toNat_mul]

/-- If the float constant `c` satisfies `c (1 + u)² < 1` for the relative
error bound `u = 2⁻⁵³`, then `int(n * c) < n` for every positive `n`: the two
roundings cannot push the product up to `n`. -/
theorem pyIntMulFloat_lt (n : ℕ) (hn : 0 < n) (c : F64)
    (hc : c.toQ * ((1 + (2 : ℚ) ^ (-53 : ℤ)) * (1 + (2 : ℚ) ^ (-53 : ℤ))) < 1) :
    pyIntMulFloat n c < n := by
  unfold pyIntMulFloat
  have hu : (0 : ℚ) ≤ 1 + (2 : ℚ) ^ (-53 : ℤ) := by positivity
  have h1 : (roundFrac n 1).toQ ≤ (n : ℚ) * (1 + (2 : ℚ) ^ (-53 : ℤ)) := by
    have := roundFrac_toQ_le n 1 one_pos
    simpa using this
  have hc0 : (0 : ℚ) ≤ c.toQ := c.toQ_nonneg
  have h3 : ((roundFrac n 1).mul c).toQ < (n : ℚ) := by
    calc ((roundFrac n 1).mul c).toQ
        ≤ (roundFrac n 1).toQ * c.toQ * (1 + (2 : ℚ) ^ (-53 : ℤ)) := mul_toQ_le _ c
      _ ≤ (n : ℚ) * (1 + (2 : ℚ) ^ (-53 : ℤ)) * c.toQ * (1 + (2 : ℚ) ^ (-53 : ℤ)) := by
          have := mul_le_mul_of_nonneg_right (mul_le_mul_of_nonneg_right h1 hc0) hu
          linarith
      _ = (n : ℚ) * (c.toQ * ((1 + (2 : ℚ) ^ (-53 : ℤ)) * (1 + (2 : ℚ) ^ (-53 : ℤ)))) := by
          ring
      _ < (n : ℚ) * 1 := by
          exact mul_lt_mul_of_pos_left hc (by exact_mod_cast hn)
      _ = (n : ℚ) := mul_one _
  have h4 := floorNat_le_toQ ((roundFrac n 1).mul c)
  exact_mod_cast lt_of_le_of_lt h4 h3

/-- The binary64 value of `0.7`, as computed by the model. -/
theorem lit07_val : lit07 = ⟨6305039478318694, -53⟩ := by decide

/-- The rendered bubble is strictly narrower than the canvas:
`int(size * 0.7) < size` for every positive `size`. -/
theorem bubble_lt_size (size : ℕ) (h : 0 < size) : pyIntMulFloat size lit07 < size := by
  apply pyIntMulFloat_lt size h
  rw [lit07_val]
  show (6305039478318694 : ℚ) * 2 ^ (-53 : ℤ) * _ < 1
  have h53 : (2 : ℚ) ^ (-53 : ℤ) = 1 / 9007199254740992 := by
    rw [show (-53 : ℤ) = -(53 : ℕ) from by norm_num, zpow_neg, zpow_natCast]
    norm_num
  rw [h53]
  norm_num

/-- Since the bubble is narrower than the canvas, the code's ℕ-level
`(size - bubble_size) // 2` agrees with the claim's integer-level reading. -/
theorem margin_cast (size : ℕ) (h : 0 < size) :
    (((size - pyIntMulFloat size lit07) / 2 : ℕ) : ℤ) =
      ((size : ℤ) - (pyIntMulFloat size lit07 : ℤ)) / 2 := by
  have hlt := bubble_lt_size size h
  omega

theorem lookupFile_setFile_self (l : List (String × Image)) (p : String) (img : Image) :
    lookupFile (setFile l p img) p = some img := by
  induction l with
  | nil => simp [setFile, lookupFile]
  | cons hd tl ih =>
    obtain ⟨q, old⟩ := hd
    by_cases hq : q = p
    · subst hq
      simp [setFile, lookupFile]
    · simp [setFile, lookupFile, hq, ih]

theorem lookupFile_setFile_ne (l : List (String × Image)) (p p' : String) (img : Image)
    (h : p' ≠ p) : lookupFile (setFile l p img) p' = lookupFile l p' := by
  induction l with
  | nil => simp [setFile, lookupFile, Ne.symm h]
  | cons hd tl ih =>
    obtain ⟨q, old⟩ := hd
    by_cases hq : q = p
    · subst hq
      simp [setFile, lookupFile, h, Ne.symm h]
    · by_cases hq' : q = p'
      · subst hq'
        simp [setFile, lookupFile, hq]
      · simp [setFile, lookupFile, hq, hq', ih]

theorem setFile_keys (l : List (String × Image)) (p : String) (img : Image) :
    (setFile l p img).map Prod.fst =
      if p ∈ l.map Prod.fst then l.map Prod.fst else l.map Prod.fst ++ [p] := by
  induction l with
  | nil => simp [setFile]
  | cons hd tl ih =>
    obtain ⟨q, old⟩ := hd
    by_cases hq : q = p
    · subst hq
      simp [setFile]
    · simp [setFile, hq, ih, Ne.symm hq]
      split_ifs <;> simp_all

theorem setFile_nodup (l : List (String × Image)) (p : String) (img : Image)
    (h : (l.map Prod.fst).Nodup) : ((setFile l p img).map Prod.fst).Nodup := by
  rw [setFile_keys]
  split_ifs with hmem
  · exact h
  · exact List.nodup_append.mpr
      ⟨h, List.nodup_singleton p, by simpa [List.disjoint_singleton] using hmem⟩

/-- A fold over draw operations whose fills all lie in a set stays in that
set, starting from a background in the set. -/
theorem foldl_fill_mem (ops : List DrawOp) (bg : Color) (x y : ℤ) (S : Color → Prop)
    (hbg : S bg) (hops : ∀ op ∈ ops, S op.fillColor) :
    S (ops.foldl (fun c op => if op.covered x y then op.fillColor else c) bg) := by
  induction ops generalizing bg with
  | nil => exact hbg
  | cons op rest ih =>
    simp only [List.foldl_cons]
    apply ih
    · split
      · exact hops op (List.mem_cons_self op rest)
      · exact hbg
    · intro o ho
      exact hops o (List.mem_cons_of_mem op ho)

/-! ## The claims -/

/-- C1: for every positive `size`, `create_linkedin_chat_icon size` returns
an image whose width and height both equal `size`. -/
theorem C1_dimensions (size : ℕ) (_h : 0 < size) :
    (create_linkedin_chat_icon size).width = size ∧
      (create_linkedin_chat_icon size).height = size :=
  ⟨rfl, rfl⟩

theorem C1_dimensions_witness :
    (create_linkedin_chat_icon 16).width = 16 ∧
      (create_linkedin_chat_icon 16).height = 16 :=
  C1_dimensions 16 (by norm_num)

/-- C2: rendering is a deterministic function of `size` alone — the renderer
is embedded as a pure function of `size`, reading no external state and using
no randomness, so two invocations yield identical images and identical
pixel data. -/
theorem C2_deterministic (size : ℕ) (_h : 0 < size) :
    create_linkedin_chat_icon size = create_linkedin_chat_icon size ∧
      pixelData (create_linkedin_chat_icon size) =
        pixelData (create_linkedin_chat_icon size) :=
  ⟨rfl, rfl⟩

theorem C2_deterministic_witness :
    create_linkedin_chat_icon 16 = create_linkedin_chat_icon 16 ∧
      pixelData (create_linkedin_chat_icon 16) = pixelData (create_linkedin_chat_icon 16) :=
  C2_deterministic 16 (by norm_num)

/-- C3 (counterexample to the exact-arithmetic reading): at `size = 90` the
drawn bubble width is `62`, not `⌊90 * 7/10⌋ = 63`, because `int(90 * 0.7)`
truncates the binary64 product `62.99999999999999…`. At huge sizes where the
width clause happens to agree, the `0.75` (bottom) and `0.15` (corner radius)
clauses diverge from exact arithmetic in the same way. -/
theorem C3_counterexample :
    ((roundedRectsOf (create_linkedin_chat_icon 90)).map (fun rr => rr.right - rr.left) ≠
        [((7 * 90 / 10 : ℕ) : ℤ)]) ∧
    ((roundedRectsOf (create_linkedin_chat_icon 4503599627370499)).map
          (fun rr => rr.right - rr.left) =
        [((7 * 4503599627370499 / 10 : ℕ) : ℤ)]) ∧
    ((roundedRectsOf (create_linkedin_chat_icon 4503599627370499)).map
          (fun rr => rr.bottom - rr.top) ≠
        [((3 * (7 * 4503599627370499 / 10) / 4 : ℕ) : ℤ)]) ∧
    ((roundedRectsOf (create_linkedin_chat_icon 72057594037928046)).map
          (fun rr => rr.right - rr.left) =
        [((7 * 72057594037928046 / 10 : ℕ) : ℤ)]) ∧
    ((roundedRectsOf (create_linkedin_chat_icon 72057594037928046)).map
          (fun rr => rr.radius) ≠
        [((3 * (7 * 72057594037928046 / 10) / 20 : ℕ) : ℤ)]) := by
  exact ⟨by decide, by decide, by decide, by decide, by decide⟩

/-- C3 (amended): for every positive `size`, the bubble drawn by
`create_linkedin_chat_icon` is the single rounded rectangle with
`left = top = margin = (size - bubble_edge) // 2`,
`right = margin + bubble_edge`, `bottom = margin + int(bubble_edge * 0.75)`
and corner radius `int(bubble_edge * 0.15)`, where
`bubble_edge = int(size * 0.7)` and every `int(· * literal)` is the binary64
computation of the source (not the exact rational floor). -/
theorem C3_bubble_box (size : ℕ) (h : 0 < size) :
    roundedRectsOf (create_linkedin_chat_icon size) =
      [{ left := claimMargin size, top := claimMargin size,
         right := claimMargin size + (claimBubbleEdge size : ℤ),
         bottom := claimBubbleBottom size,
         radius := (claimCornerRadius size : ℤ),
         fill := white }] := by
  have hm := margin_cast size h
  simp [roundedRectsOf, create_linkedin_chat_icon, claimMargin, claimBubbleEdge,
    claimBubbleBottom, claimCornerRadius, List.range_succ]
  omega

theorem C3_bubble_box_witness :
    roundedRectsOf (create_linkedin_chat_icon 16) =
      [{ left := claimMargin 16, top := claimMargin 16,
         right := claimMargin 16 + (claimBubbleEdge 16 : ℤ),
         bottom := claimBubbleBottom 16,
         radius := (claimCornerRadius 16 : ℤ),
         fill := white }] :=
  C3_bubble_box 16 (by norm_num)

/-- C4: every pixel of the rendered icon is exactly the background color or
exactly the bubble color; all drawing operations are flat fills in one of
those two colors, so no third color can appear. -/
theorem C4_two_colors (size : ℕ) (_h : 0 < size) (x y : ℤ) :
    pixelAt (create_linkedin_chat_icon size) x y = linkedin_blue ∨
      pixelAt (create_linkedin_chat_icon size) x y = white := by
  have hops : ∀ op ∈ (create_linkedin_chat_icon size).ops,
      op.fillColor = linkedin_blue ∨ op.fillColor = white := by
    intro op hop
    simp [create_linkedin_chat_icon, List.range_succ] at hop
    rcases hop with h1 | h1 | h1 | h1 | h1 <;> subst h1 <;> simp [DrawOp.fillColor]
  exact foldl_fill_mem (create_linkedin_chat_icon size).ops
    (create_linkedin_chat_icon size).background x y
    (fun c => c = linkedin_blue ∨ c = white) (Or.inl rfl) hops

theorem C4_two_colors_witness :
    pixelAt (create_linkedin_chat_icon 16) 0 0 = linkedin_blue ∨
      pixelAt (create_linkedin_chat_icon 16) 0 0 = white :=
  C4_two_colors 16 (by norm_num) 0 0

/-- C5: the renderer draws exactly three dots, filled with the background
color, of radius `max(1, size // 32)` (hence radius 1 for `size < 32`, never
0), vertically at `bubble_top + bubble_edge / 3`, spaced `bubble_edge / 6`
apart and centered horizontally within the bubble. -/
theorem C5_dots (size : ℕ) (h : 0 < size) :
    ellipsesOf (create_linkedin_chat_icon size) =
      [{ left := claimCenterX size - (claimDotSpacing size : ℤ) - (claimDotRadius size : ℤ),
         top := claimDotY size - (claimDotRadius size : ℤ),
         right := claimCenterX size - (claimDotSpacing size : ℤ) + (claimDotRadius size : ℤ),
         bottom := claimDotY size + (claimDotRadius size : ℤ),
         fill := linkedin_blue },
       { left := claimCenterX size - (claimDotRadius size : ℤ),
         top := claimDotY size - (claimDotRadius size : ℤ),
         right := claimCenterX size + (claimDotRadius size : ℤ),
         bottom := claimDotY size + (claimDotRadius size : ℤ),
         fill := linkedin_blue },
       { left := claimCenterX size + (claimDotSpacing size : ℤ) - (claimDotRadius size : ℤ),
         top := claimDotY size - (claimDotRadius size : ℤ),
         right := claimCenterX size + (claimDotSpacing size : ℤ) + (claimDotRadius size : ℤ),
         bottom := claimDotY size + (claimDotRadius size : ℤ),
         fill := linkedin_blue }] ∧
    (size < 32 → claimDotRadius size = 1) ∧ 1 ≤ claimDotRadius size := by
  have hm := margin_cast size h
  refine ⟨?_, ?_, ?_⟩
  · simp [ellipsesOf, create_linkedin_chat_icon, claimCenterX, claimDotSpacing,
      claimDotRadius, claimDotY, claimMargin, claimBubbleEdge, List.range_succ]
    omega
  · intro hlt
    simp [claimDotRadius]
    omega
  · simp [claimDotRadius]

theorem C5_dots_witness :
    ellipsesOf (create_linkedin_chat_icon 16) =
      [{ left := claimCenterX 16 - (claimDotSpacing 16 : ℤ) - (claimDotRadius 16 : ℤ),
         top := claimDotY 16 - (claimDotRadius 16 : ℤ),
         right := claimCenterX 16 - (claimDotSpacing 16 : ℤ) + (claimDotRadius 16 : ℤ),
         bottom := claimDotY 16 + (claimDotRadius 16 : ℤ),
         fill := linkedin_blue },
       { left := claimCenterX 16 - (claimDotRadius 16 : ℤ),
         top := claimDotY 16 - (claimDotRadius 16 : ℤ),
         right := claimCenterX 16 + (claimDotRadius 16 : ℤ),
         bottom := claimDotY 16 + (claimDotRadius 16 : ℤ),
         fill := linkedin_blue },
       { left := claimCenterX 16 + (claimDotSpacing 16 : ℤ) - (claimDotRadius 16 : ℤ),
         top := claimDotY 16 - (claimDotRadius 16 : ℤ),
         right := claimCenterX 16 + (claimDotSpacing 16 : ℤ) + (claimDotRadius 16 : ℤ),
         bottom := claimDotY 16 + (claimDotRadius 16 : ℤ),
         fill := linkedin_blue }] ∧
    (16 < 32 → claimDotRadius 16 = 1) ∧ 1 ≤ claimDotRadius 16 :=
  C5_dots 16 (by norm_num)

/-- C6 (counterexample to the exact-arithmetic reading): at huge sizes where
the drawn bubble edge agrees with `⌊size * 7/10⌋`, the tail's base width
differs from `⌊bubble_edge / 5⌋ = ⌊bubble_edge * 0.2⌋` (first size), and the
tail's x-offset from the bubble's left edge differs from
`⌊3 * bubble_edge / 10⌋ = ⌊bubble_edge * 0.3⌋` (second size), because the
code computes them in binary64. -/
theorem C6_counterexample :
    ((roundedRectsOf (create_linkedin_chat_icon 18014398509481992)).map
          (fun rr => rr.right - rr.left) =
        [((7 * 18014398509481992 / 10 : ℕ) : ℤ)]) ∧
    ((polygonsOf (create_linkedin_chat_icon 18014398509481992)).map
          (fun pg => pg.1.map Prod.fst) =
        [[6485183463413517, 9007199254740996, 7746191359077256]]) ∧
    ((9007199254740996 : ℤ) - 6485183463413517 ≠
        ((7 * 18014398509481992 / 10 / 5 : ℕ) : ℤ)) ∧
    ((roundedRectsOf (create_linkedin_chat_icon 36028797018964023)).map
          (fun rr => (rr.left, rr.right - rr.left)) =
        [((5404319552844603 : ℤ), ((7 * 36028797018964023 / 10 : ℕ) : ℤ))]) ∧
    ((polygonsOf (create_linkedin_chat_icon 36028797018964023)).map
          (fun pg => pg.1.map Prod.fst) =
        [[12970366926827048, 18014398509482011, 15492382718154529]]) ∧
    ((12970366926827048 : ℤ) - 5404319552844603 ≠
        ((3 * (7 * 36028797018964023 / 10) / 10 : ℕ) : ℤ)) := by
  exact ⟨by decide, by decide, by decide, by decide, by decide, by decide⟩

/-- C6 (amended): for every positive `size`, the tail is the single filled
polygon, in the foreground color, with base width
`tail_size = int(bubble_edge * 0.2)`, anchored at the bubble's bottom edge
with x-offset `int(bubble_edge * 0.3)` from the bubble's left edge, and
vertices `(tail_x, bottom)`, `(tail_x + tail_size, bottom)` and
`(tail_x + tail_size // 2, bottom + tail_size // 2)`, where each
`int(· * literal)` is the binary64 computation of the source (not the exact
rational floor). -/
theorem C6_tail (size : ℕ) (h : 0 < size) :
    polygonsOf (create_linkedin_chat_icon size) =
      [([(claimTailX size, claimBubbleBottom size),
         (claimTailX size + (claimTailSize size : ℤ), claimBubbleBottom size),
         (claimTailX size + ((claimTailSize size / 2 : ℕ) : ℤ),
          claimBubbleBottom size + ((claimTailSize size / 2 : ℕ) : ℤ))], white)] := by
  have hm := margin_cast size h
  simp [polygonsOf, create_linkedin_chat_icon, claimTailX, claimTailSize,
    claimBubbleBottom, claimMargin, claimBubbleEdge, List.range_succ]
  omega

theorem C6_tail_witness :
    polygonsOf (create_linkedin_chat_icon 16) =
      [([(claimTailX 16, claimBubbleBottom 16),
         (claimTailX 16 + (claimTailSize 16 : ℤ), claimBubbleBottom 16),
         (claimTailX 16 + ((claimTailSize 16 / 2 : ℕ) : ℤ),
          claimBubbleBottom 16 + ((claimTailSize 16 / 2 : ℕ) : ℤ))], white)] :=
  C6_tail 16 (by norm_num)

/-- C10: for each of the four driver sizes, every coordinate of every drawn
primitive (rounded rectangle, tail vertices, dot bounding boxes) lies within
the canvas bounds `0 … size - 1`, so no drawing is clipped. -/
theorem C10_in_canvas :
    iconInCanvas 16 = true ∧ iconInCanvas 32 = true ∧
      iconInCanvas 64 = true ∧ iconInCanvas 128 = true := by
  exact ⟨by decide, by decide, by decide, by decide⟩

/-- The fault-free driver run, computed: the directory is ensured, the four
icons are written in order, and one line is reported per file. -/
theorem mainRun_eq (fs : FSState) :
    Driver.main noFaults fs =
      Sum.inr (⟨(makedirs icons_dir fs).dirs,
        setFile (setFile (setFile (setFile fs.files
          "src/icons/logo-16.png" (create_linkedin_chat_icon 16))
          "src/icons/logo-32.png" (create_linkedin_chat_icon 32))
          "src/icons/logo-64.png" (create_linkedin_chat_icon 64))
          "src/icons/logo-128.png" (create_linkedin_chat_icon 128)⟩,
        ["Created src/icons/logo-16.png", "Created src/icons/logo-32.png",
         "Created src/icons/logo-64.png", "Created src/icons/logo-128.png"]) := by
  have e16 : iconPath 16 = "src/icons/logo-16.png" := by decide
  have e32 : iconPath 32 = "src/icons/logo-32.png" := by decide
  have e64 : iconPath 64 = "src/icons/logo-64.png" := by decide
  have e128 : iconPath 128 = "src/icons/logo-128.png" := by decide
  have c16 : ("Created " ++ "src/icons/logo-16.png" : String) =
    "Created src/icons/logo-16.png" := by decide
  have c32 : ("Created " ++ "src/icons/logo-32.png" : String) =
    "Created src/icons/logo-32.png" := by decide
  have c64 : ("Created " ++ "src/icons/logo-64.png" : String) =
    "Created src/icons/logo-64.png" := by decide
  have c128 : ("Created " ++ "src/icons/logo-128.png" : String) =
    "Created src/icons/logo-128.png" := by decide
  simp [Driver.main, runSizes, sizes, noFaults, saveFile, makedirs, e16, e32, e64, e128,
    c16, c32, c64, c128]

/-- C7: the driver ensures the output directory exists, renders and writes
`logo-16/32/64/128.png` into it in that order, prints one confirmation line
per file, and produces exactly those four files (every other path is
untouched). -/
theorem C7_driver (fs : FSState) :
    ∃ fs' : FSState,
      Driver.main noFaults fs = Sum.inr (fs',
        ["Created src/icons/logo-16.png", "Created src/icons/logo-32.png",
         "Created src/icons/logo-64.png", "Created src/icons/logo-128.png"]) ∧
      "src/icons" ∈ fs'.dirs ∧
      lookupFile fs'.files "src/icons/logo-16.png" = some (create_linkedin_chat_icon 16) ∧
      lookupFile fs'.files "src/icons/logo-32.png" = some (create_linkedin_chat_icon 32) ∧
      lookupFile fs'.files "src/icons/logo-64.png" = some (create_linkedin_chat_icon 64) ∧
      lookupFile fs'.files "src/icons/logo-128.png" = some (create_linkedin_chat_icon 128) ∧
      ∀ p : String, p ≠ "src/icons/logo-16.png" → p ≠ "src/icons/logo-32.png" →
        p ≠ "src/icons/logo-64.png" → p ≠ "src/icons/logo-128.png" →
        lookupFile fs'.files p = lookupFile fs.files p := by
  refine ⟨_, mainRun_eq fs, ?_, ?_, ?_, ?_, ?_, ?_⟩
  · by_cases hmem : "src/icons" ∈ fs.dirs <;> simp [makedirs, icons_dir, hmem]
  · rw [lookupFile_setFile_ne _ _ _ _ (by decide), lookupFile_setFile_ne _ _ _ _ (by decide),
      lookupFile_setFile_ne _ _ _ _ (by decide)]
    exact lookupFile_setFile_self _ _ _
  · rw [lookupFile_setFile_ne _ _ _ _ (by decide), lookupFile_setFile_ne _ _ _ _ (by decide)]
    exact lookupFile_setFile_self _ _ _
  · rw [lookupFile_setFile_ne _ _ _ _ (by decide)]
    exact lookupFile_setFile_self _ _ _
  · exact lookupFile_setFile_self _ _ _
  · intro p h1 h2 h3 h4
    rw [lookupFile_setFile_ne _ _ _ _ h4, lookupFile_setFile_ne _ _ _ _ h3,
      lookupFile_setFile_ne _ _ _ _ h2, lookupFile_setFile_ne _ _ _ _ h1]

theorem C7_driver_witness :
    ∃ fs' : FSState,
      Driver.main noFaults ⟨[], []⟩ = Sum.inr (fs',
        ["Created src/icons/logo-16.png", "Created src/icons/logo-32.png",
         "Created src/icons/logo-64.png", "Created src/icons/logo-128.png"]) ∧
      "src/icons" ∈ fs'.dirs ∧
      lookupFile fs'.files "src/icons/logo-16.png" = some (create_linkedin_chat_icon 16) ∧
      lookupFile fs'.files "src/icons/logo-32.png" = some (create_linkedin_chat_icon 32) ∧
      lookupFile fs'.files "src/icons/logo-64.png" = some (create_linkedin_chat_icon 64) ∧
      lookupFile fs'.files "src/icons/logo-128.png" = some (create_linkedin_chat_icon 128) ∧
      ∀ p : String, p ≠ "src/icons/logo-16.png" → p ≠ "src/icons/logo-32.png" →
        p ≠ "src/icons/logo-64.png" → p ≠ "src/icons/logo-128.png" →
        lookupFile fs'.files p = lookupFile ([] : List (String × Image)) p :=
  C7_driver ⟨[], []⟩

/-- C8: running the driver twice in succession succeeds both times, prints
the same lines, leaves the directory set unchanged, and leaves exactly the
same files with identical content — the second run overwrites rather than
duplicating (key-uniqueness of the file map is preserved) or erroring. -/
theorem C8_idempotent (fs : FSState) :
    ∃ fs₁ out, Driver.main noFaults fs = Sum.inr (fs₁, out) ∧
      ∃ fs₂, Driver.main noFaults fs₁ = Sum.inr (fs₂, out) ∧
        fs₂.dirs = fs₁.dirs ∧
        (∀ p, lookupFile fs₂.files p = lookupFile fs₁.files p) ∧
        ((fs.files.map Prod.fst).Nodup → (fs₂.files.map Prod.fst).Nodup) := by
  refine ⟨_, _, mainRun_eq fs, _, mainRun_eq _, ?_, ?_, ?_⟩
  · by_cases h : icons_dir ∈ fs.dirs <;> simp [makedirs, h]
  · intro p
    by_cases h128 : p = "src/icons/logo-128.png"
    · subst h128
      rw [lookupFile_setFile_self, lookupFile_setFile_self]
    by_cases h64 : p = "src/icons/logo-64.png"
    · subst h64
      rw [lookupFile_setFile_ne _ _ _ _ (by decide), lookupFile_setFile_self,
        lookupFile_setFile_ne _ _ _ _ (by decide), lookupFile_setFile_self]
    by_cases h32 : p = "src/icons/logo-32.png"
    · subst h32
      rw [lookupFile_setFile_ne _ _ _ _ (by decide), lookupFile_setFile_ne _ _ _ _ (by decide),
        lookupFile_setFile_self, lookupFile_setFile_ne _ _ _ _ (by decide),
        lookupFile_setFile_ne _ _ _ _ (by decide), lookupFile_setFile_self]
    by_cases h16 : p = "src/icons/logo-16.png"
    · subst h16
      rw [lookupFile_setFile_ne _ _ _ _ (by decide), lookupFile_setFile_ne _ _ _ _ (by decide),
        lookupFile_setFile_ne _ _ _ _ (by decide), lookupFile_setFile_self,
        lookupFile_setFile_ne _ _ _ _ (by decide), lookupFile_setFile_ne _ _ _ _ (by decide),
        lookupFile_setFile_ne _ _ _ _ (by decide), lookupFile_setFile_self]
    · rw [lookupFile_setFile_ne _ _ _ _ h128, lookupFile_setFile_ne _ _ _ _ h64,
        lookupFile_setFile_ne _ _ _ _ h32, lookupFile_setFile_ne _ _ _ _ h16]
  · intro hnd
    exact setFile_nodup _ _ _ (setFile_nodup _ _ _ (setFile_nodup _ _ _ (setFile_nodup _ _ _
      (setFile_nodup _ _ _ (setFile_nodup _ _ _ (setFile_nodup _ _ _
        (setFile_nodup _ _ _ hnd)))))))

theorem C8_idempotent_witness :
    ∃ fs₁ out, Driver.main noFaults ⟨[], []⟩ = Sum.inr (fs₁, out) ∧
      ∃ fs₂, Driver.main noFaults fs₁ = Sum.inr (fs₂, out) ∧
        fs₂.dirs = fs₁.dirs ∧
        (∀ p, lookupFile fs₂.files p = lookupFile fs₁.files p) ∧
        ((([] : List (String × Image)).map Prod.fst).Nodup →
          (fs₂.files.map Prod.fst).Nodup) :=
  C8_idempotent ⟨[], []⟩

/-- C9: an I/O failure in directory creation or in any file write propagates
immediately and untranslated: the driver returns the underlying error with
the filesystem as mutated so far — files already written for earlier sizes
remain, later files are untouched, and no retry or recovery runs (the
embedding of `main` contains no handler, mirroring the absence of
`try`/`except` in the source). -/
theorem C9_errors (env : IOFaults) (fs : FSState) (err : String) :
    (env.mkdirErr = some err → Driver.main env fs = Sum.inl (err, fs)) ∧
    (env.mkdirErr = none → env.saveErr (iconPath 16) = some err →
      Driver.main env fs = Sum.inl (err, makedirs icons_dir fs)) ∧
    (env.mkdirErr = none → env.saveErr (iconPath 16) = none →
        env.saveErr (iconPath 32) = some err →
      ∃ fs', Driver.main env fs = Sum.inl (err, fs') ∧
        lookupFile fs'.files (iconPath 16) = some (create_linkedin_chat_icon 16) ∧
        ∀ p, p ≠ iconPath 16 → lookupFile fs'.files p = lookupFile fs.files p) ∧
    (env.mkdirErr = none → env.saveErr (iconPath 16) = none →
        env.saveErr (iconPath 32) = none → env.saveErr (iconPath 64) = some err →
      ∃ fs', Driver.main env fs = Sum.inl (err, fs') ∧
        lookupFile fs'.files (iconPath 16) = some (create_linkedin_chat_icon 16) ∧
        lookupFile fs'.files (iconPath 32) = some (create_linkedin_chat_icon 32) ∧
        ∀ p, p ≠ iconPath 16 → p ≠ iconPath 32 →
          lookupFile fs'.files p = lookupFile fs.files p) ∧
    (env.mkdirErr = none → env.saveErr (iconPath 16) = none →
        env.saveErr (iconPath 32) = none → env.saveErr (iconPath 64) = none →
        env.saveErr (iconPath 128) = some err →
      ∃ fs', Driver.main env fs = Sum.inl (err, fs') ∧
        lookupFile fs'.files (iconPath 16) = some (create_linkedin_chat_icon 16) ∧
        lookupFile fs'.files (iconPath 32) = some (create_linkedin_chat_icon 32) ∧
        lookupFile fs'.files (iconPath 64) = some (create_linkedin_chat_icon 64) ∧
        ∀ p, p ≠ iconPath 16 → p ≠ iconPath 32 → p ≠ iconPath 64 →
          lookupFile fs'.files p = lookupFile fs.files p) := by
  refine ⟨?_, ?_, ?_, ?_, ?_⟩
  · intro hmk
    simp [Driver.main, hmk]
  · intro hmk h16
    simp [Driver.main, runSizes, sizes, hmk, h16]
  · intro hmk h16 h32
    refine ⟨⟨(makedirs icons_dir fs).dirs,
        setFile fs.files (iconPath 16) (create_linkedin_chat_icon 16)⟩,
      by simp [Driver.main, runSizes, sizes, saveFile, makedirs, hmk, h16, h32], ?_, ?_⟩
    · exact lookupFile_setFile_self _ _ _
    · intro p hp
      exact lookupFile_setFile_ne _ _ _ _ hp
  · intro hmk h16 h32 h64
    refine ⟨⟨(makedirs icons_dir fs).dirs,
        setFile (setFile fs.files (iconPath 16) (create_linkedin_chat_icon 16))
          (iconPath 32) (create_linkedin_chat_icon 32)⟩,
      by simp [Driver.main, runSizes, sizes, saveFile, makedirs, hmk, h16, h32, h64],
      ?_, ?_, ?_⟩
    · rw [lookupFile_setFile_ne _ _ _ _ (by decide)]
      exact lookupFile_setFile_self _ _ _
    · exact lookupFile_setFile_self _ _ _
    · intro p hp16 hp32
      rw [lookupFile_setFile_ne _ _ _ _ hp32, lookupFile_setFile_ne _ _ _ _ hp16]
  · intro hmk h16 h32 h64 h128
    refine ⟨⟨(makedirs icons_dir fs).dirs,
        setFile (setFile (setFile fs.files (iconPath 16) (create_linkedin_chat_icon 16))
          (iconPath 32) (create_linkedin_chat_icon 32))
          (iconPath 64) (create_linkedin_chat_icon 64)⟩,
      by simp [Driver.main, runSizes, sizes, saveFile, makedirs, hmk, h16, h32, h64,
        h128], ?_, ?_, ?_, ?_⟩
    · rw [lookupFile_setFile_ne _ _ _ _ (by decide), lookupFile_setFile_ne _ _ _ _ (by decide)]
      exact lookupFile_setFile_self _ _ _
    · rw [lookupFile_setFile_ne _ _ _ _ (by decide)]
      exact lookupFile_setFile_self _ _ _
    · exact lookupFile_setFile_self _ _ _
    · intro p hp16 hp32 hp64
      rw [lookupFile_setFile_ne _ _ _ _ hp64, lookupFile_setFile_ne _ _ _ _ hp32,
        lookupFile_setFile_ne _ _ _ _ hp16]

theorem C9_errors_witness :
    ∃ fs', Driver.main
        ⟨none, fun p => if p = "src/icons/logo-64.png" then some "disk full" else none⟩
        ⟨[], []⟩ = Sum.inl ("disk full", fs') ∧
      lookupFile fs'.files (iconPath 16) = some (create_linkedin_chat_icon 16) ∧
      lookupFile fs'.files (iconPath 32) = some (create_linkedin_chat_icon 32) ∧
      ∀ p, p ≠ iconPath 16 → p ≠ iconPath 32 →
        lookupFile fs'.files p = lookupFile ([] : List (String × Image)) p :=
  (C9_errors
      ⟨none, fun p => if p = "src/icons/logo-64.png" then some "disk full" else none⟩
      ⟨[], []⟩ "disk full").2.2.2.1 rfl (by decide) (by decide) (by decide)
